import Mathlib

/-!
Verification of the LoRaWAN field-tester uplink/downlink pipeline
(src/app/server.py) against its natural-language specification.

The Python source is shallowly embedded as follows:
* Python ints are `ℤ` (or `ℕ` where the source value is provably
  nonnegative), Python floats are exact rationals `ℚ` (every float
  produced on the paths studied here is an exact dyadic/decimal value
  or is compared far from any rounding boundary, see the comments at
  the individual definitions),
* Python byte strings are `List ℕ` (each entry < 256 when produced by
  a real decode), JSON values are the inductive `JVal`,
* fallible Python code is embedded in `Except PyErr`, where a
  `PyErr` value models an uncaught Python exception of that class and
  `Except.ok` models normal return; the parsers return
  `Except.ok none` for the "no downlink" result `[False, False]`,
* the floating-point great-circle distance computation
  (`circleDistance`, spherical law of cosines followed by `int(...)`
  truncation) is not exactly representable; since no claim constrains
  its value, `process` is parameterized by an arbitrary distance
  function `dist` standing for `int(circleDistance(output, loc))`.
-/

namespace FieldTester

/-- Model of an uncaught Python exception class. -/
inductive PyErr where
  | indexError
  | keyError (key : List Char)
  | typeError
  | attributeError
  | binasciiError
  | valueError
deriving DecidableEq

/-- `data[i]` on a Python bytes object: the byte, or `IndexError` when
`i` is out of range (nonnegative indices only, which is all the source
uses). Models the subscripts in `process` (server.py lines 159-171). -/
def pyGet (data : List ℕ) (i : ℕ) : Except PyErr ℕ :=
  match data[i]? with
  | some b => Except.ok b
  | none => Except.error PyErr.indexError

/-- `constrain(value, lower, upper) = min(upper, max(lower, value))`
(server.py lines 146-147), at type `ℕ`. -/
def constrain (value lower upper : ℕ) : ℕ :=
  min upper (max lower value)

/-- Model of `int(round(n / d.0))` for a Python int `n ≥ 0` and positive
int literal `d` (the source divides by `250.0`, `10.0`).  Python 3
`round` is round-half-to-even on the float `n / d`; for the divisors 10
and 250 that occur in the source the quotient's distance from a
half-integer tie is either 0 or at least `1/250`, far above the float
rounding error of the division, so round-half-to-even on the exact
rational `n / d` is the faithful model. -/
def pyRoundDiv (n d : ℕ) : ℕ :=
  let q := n / d
  let r := n % d
  if 2 * r < d then q
  else if d < 2 * r then q + 1
  else if q % 2 = 0 then q else q + 1

/-- Sentinel `MAX_DISTANCE = 1e6` (server.py line 149; the float value
is exactly 1000000). -/
def MAX_DISTANCE : ℕ := 1000000

/-- Sentinel `MIN_DISTANCE = 0` (server.py line 150). -/
def MIN_DISTANCE : ℕ := 0

/-- Sentinel `MAX_RSSI = 200` (server.py line 151). -/
def MAX_RSSI : ℤ := 200

/-- Sentinel `MIN_RSSI = -200` (server.py line 152). -/
def MIN_RSSI : ℤ := -200

/-- A gateway reception record as consumed by the aggregation loop in
`process`: `rssi` from `gateway.get('rssi', ...)` and the optional
`location.latitude` / `location.longitude` pair.  Typed at the schema
declared by the spec (section 6): `rssi` an int, coordinates floats
(embedded as exact rationals). -/
structure Gateway where
  rssi : Option ℤ
  location : Option (ℚ × ℚ)
deriving DecidableEq

/-- The running min/max state of the gateway aggregation loop
(server.py lines 176-192). -/
structure AggState where
  min_rssi : ℤ
  max_rssi : ℤ
  min_distance : ℕ
  max_distance : ℕ
deriving DecidableEq

/-- One iteration of `for gateway in gateways` (server.py lines
180-192): fold the gateway's rssi into the signal bounds (a missing
rssi contributes the opposite sentinel, hence nothing), and when there
is a GPS fix and the gateway carries a location, fold the truncated
great-circle distance into the distance bounds. -/
def aggStep (dist : ℚ × ℚ → ℚ × ℚ → ℕ) (coords : Option (ℚ × ℚ))
    (has_gps : Bool) (st : AggState) (gw : Gateway) : AggState :=
  let st1 : AggState :=
    { st with
      min_rssi := min st.min_rssi (gw.rssi.getD MAX_RSSI)
      max_rssi := max st.max_rssi (gw.rssi.getD MIN_RSSI) }
  if has_gps then
    match coords, gw.location with
    | some c, some l =>
      let d : ℕ := dist c l
      { st1 with
        min_distance := min st1.min_distance d
        max_distance := max st1.max_distance d }
    | _, _ => st1
  else st1

/-- The whole aggregation loop of `process` (server.py lines 176-192),
starting from the sentinel initial values `min_rssi = MAX_RSSI`,
`max_rssi = MIN_RSSI`, `min_distance = MAX_DISTANCE if has_gps else
MIN_DISTANCE`, `max_distance = MIN_DISTANCE`. -/
def aggregateGateways (dist : ℚ × ℚ → ℚ × ℚ → ℕ) (coords : Option (ℚ × ℚ))
    (has_gps : Bool) (gateways : List Gateway) : AggState :=
  gateways.foldl (aggStep dist coords has_gps)
    { min_rssi := MAX_RSSI
      max_rssi := MIN_RSSI
      min_distance := if has_gps then MAX_DISTANCE else MIN_DISTANCE
      max_distance := MIN_DISTANCE }

/-- The aggregate statistics of one uplink (spec section 3,
"AggregateResult"), as assembled by `process` before the response
buffer is built. -/
structure AggregateResult where
  hasFix : Bool
  minSignal : ℤ
  maxSignal : ℤ
  minDistance : ℕ
  maxDistance : ℕ
  gatewayCount : ℕ
deriving DecidableEq

/-- The response-buffer construction of `process` (server.py lines
209-231): a 6-byte layout for port 1, an 8-byte layout for port 11,
and no buffer for any other port.  Entries are Python ints (`ℤ`).
`int(min_distance / 256)` is float division by the power of two 256
followed by truncation, which is exact: it is embedded as natural
division. -/
def buildBuffer (agg : AggregateResult) (sequence_id : ℤ) (port : ℚ) :
    Option (List ℤ) :=
  if port = 1 then
    let min_distance : ℕ :=
      if agg.hasFix then constrain (pyRoundDiv agg.minDistance 250) 1 128 else 0
    let max_distance : ℕ :=
      if agg.hasFix then constrain (pyRoundDiv agg.maxDistance 250) 1 128 else 0
    some [sequence_id % 256,
          (agg.minSignal + 200) % 256,
          (agg.maxSignal + 200) % 256,
          (min_distance : ℤ),
          (max_distance : ℤ),
          (agg.gatewayCount : ℤ) % 256]
  else if port = 11 then
    let min_distance : ℕ :=
      if agg.hasFix then constrain (pyRoundDiv agg.minDistance 10) 1 65535 else 0
    let max_distance : ℕ :=
      if agg.hasFix then constrain (pyRoundDiv agg.maxDistance 10) 1 65535 else 0
    some [sequence_id % 256,
          (agg.minSignal + 200) % 256,
          (agg.maxSignal + 200) % 256,
          ((min_distance / 256 : ℕ) : ℤ) % 256, ((min_distance % 256 : ℕ) : ℤ),
          ((max_distance / 256 : ℕ) : ℤ) % 256, ((max_distance % 256 : ℕ) : ℤ),
          (agg.gatewayCount : ℤ) % 256]
  else none

/-- The GPS fields that `process` adds to its output only when
`has_gps` (server.py lines 164-172). -/
structure GpsData where
  latitude : ℚ
  longitude : ℚ
  altitude : ℤ
  accuracy : ℚ
deriving DecidableEq

/-- The output dictionary of `process`: fix-quality fields, the
optional GPS block, the aggregate statistics, and the optional response
buffer (present exactly for ports 1 and 11). -/
structure Output where
  hdop : ℚ
  sats : ℕ
  has_gps : Bool
  gps : Option GpsData
  agg : AggregateResult
  buffer : Option (List ℤ)
deriving DecidableEq

/-- `process(data, port, sequence_id, gateways, config)` (server.py
lines 154-233), with publishing to telemetry (lines 195-206) out of
scope: it does not affect the output.  Byte subscripts are fallible
(`IndexError` on short payloads); everything after them is total.
`dist` stands for `int(circleDistance(output, loc))`. -/
def process (dist : ℚ × ℚ → ℚ × ℚ → ℕ) (data : List ℕ) (port : ℚ)
    (sequence_id : ℤ) (gateways : List Gateway) : Except PyErr Output := do
  let b8 ← pyGet data 8
  let b9 ← pyGet data 9
  let hdop : ℚ := (b8 : ℚ) / 10
  let sats : ℕ := b9
  let has_gps : Bool := if hdop ≤ 2 ∧ 5 ≤ sats then true else false
  let gps ← (if has_gps then do
      let b0 ← pyGet data 0
      let b1 ← pyGet data 1
      let b2 ← pyGet data 2
      let b3 ← pyGet data 3
      let b4 ← pyGet data 4
      let b5 ← pyGet data 5
      let b6 ← pyGet data 6
      let b7 ← pyGet data 7
      let lonSign : ℚ := if (b0 >>> 7) &&& 1 ≠ 0 then -1 else 1
      let latSign : ℚ := if (b0 >>> 6) &&& 1 ≠ 0 then -1 else 1
      let encLat : ℕ := ((b0 &&& 0x3f) <<< 17) + (b1 <<< 9) + (b2 <<< 1) + (b3 >>> 7)
      let encLon : ℕ := ((b3 &&& 0x7f) <<< 16) + (b4 <<< 8) + b5
      pure (some
        { latitude := latSign * ((encLat : ℚ) * 108 + 53) / 10000000
          longitude := lonSign * ((encLon : ℚ) * 215 + 107) / 10000000
          altitude := (((b6 <<< 8) + b7 : ℕ) : ℤ) - 1000
          accuracy := (hdop * 5 + 5) / 10 })
    else pure none)
  let st := aggregateGateways dist (gps.map fun g => (g.latitude, g.longitude))
    has_gps gateways
  let agg : AggregateResult :=
    { hasFix := has_gps
      minSignal := st.min_rssi
      maxSignal := st.max_rssi
      minDistance := st.min_distance
      maxDistance := st.max_distance
      gatewayCount := gateways.length }
  pure
    { hdop := hdop
      sats := sats
      has_gps := has_gps
      gps := gps
      agg := agg
      buffer := buildBuffer agg sequence_id port }

/-! JSON values, as produced by a successful `json.loads`.  Object
fields are listed with distinct keys (`json.loads` keeps one value per
key). -/

/-- A decoded JSON value. -/
inductive JVal where
  | jnull
  | jbool (b : Bool)
  | jnum (q : ℚ)
  | jstr (s : List Char)
  | jarr (elems : List JVal)
  | jobj (fields : List (List Char × JVal))

/-- Association-list lookup inside a JSON object. -/
def jlookup (fields : List (List Char × JVal)) (key : List Char) : Option JVal :=
  match fields with
  | [] => none
  | f :: rest => if f.1 = key then some f.2 else jlookup rest key

/-- Python `==` between a JSON value and an int literal, as used by the
port checks `port != 1 and port != 11`: numbers compare numerically,
bools compare as 0/1 (Python `True == 1`), everything else is unequal
(no exception). -/
def pyEqInt (v : JVal) (z : ℤ) : Bool :=
  match v with
  | JVal.jnum q => if q = (z : ℚ) then true else false
  | JVal.jbool b => if (if b then (1 : ℚ) else 0) = (z : ℚ) then true else false
  | _ => false

/-- The numeric value of a JSON value already known to compare equal to
an int (ports after the check); 0 elsewhere (unreachable there). -/
def jvalNum (v : JVal) : ℚ :=
  match v with
  | JVal.jnum q => q
  | JVal.jbool b => if b then 1 else 0
  | _ => 0

/-- Does `needle` occur as a contiguous run inside `hay`? (Python
`str in str`.) -/
def listHasInfix (hay needle : List Char) : Bool :=
  match hay with
  | [] => if needle = [] then true else false
  | _ :: rest =>
    if needle.isPrefixOf hay then true else listHasInfix rest needle

/-- Python `key in payload` for a string `key`: key test on a dict,
membership on a list (only a string element can equal `key`), substring
test on a string, `TypeError` on the remaining JSON values
(server.py lines 245 and 290). -/
def pyContains (v : JVal) (key : List Char) : Except PyErr Bool :=
  match v with
  | JVal.jobj fields => Except.ok (jlookup fields key).isSome
  | JVal.jarr elems =>
    Except.ok (elems.any fun e =>
      match e with
      | JVal.jstr s => if s = key then true else false
      | _ => false)
  | JVal.jstr s => Except.ok (listHasInfix s key)
  | _ => Except.error PyErr.typeError

/-- Python `payload[key]` for a string key: lookup in a dict
(`KeyError` when absent), `TypeError` on any other value. -/
def pySubscript (v : JVal) (key : List Char) : Except PyErr JVal :=
  match v with
  | JVal.jobj fields =>
    match jlookup fields key with
    | some w => Except.ok w
    | none => Except.error (PyErr.keyError key)
  | _ => Except.error PyErr.typeError

/-- Python `payload.get(key, default)`: only dicts have `.get`, every
other value raises `AttributeError` (server.py line 294). -/
def pyGetD (v : JVal) (key : List Char) (dflt : JVal) : Except PyErr JVal :=
  match v with
  | JVal.jobj fields => Except.ok ((jlookup fields key).getD dflt)
  | _ => Except.error PyErr.attributeError

/-- A JSON string, else `TypeError` (what `base64.b64decode` raises on
a non-string argument). -/
def toStrJ (v : JVal) : Except PyErr (List Char) :=
  match v with
  | JVal.jstr s => Except.ok s
  | _ => Except.error PyErr.typeError

/-- An integer JSON number, at the schema declared by the spec
(section 6) for the frame counter. -/
def toIntJ (v : JVal) : Except PyErr ℤ :=
  match v with
  | JVal.jnum q => if q.den = 1 then Except.ok q.num else Except.error PyErr.typeError
  | _ => Except.error PyErr.typeError

/-- One gateway reception record from JSON, at the schema declared by
the spec (section 6): `rssi` an optional int, `location` an optional
dict whose `latitude`/`longitude` must both be present and numeric to
count (server.py lines 186-189); a non-dict record raises
`AttributeError` at `gateway.get`. -/
def toGateway (v : JVal) : Except PyErr Gateway :=
  match v with
  | JVal.jobj fields =>
    (match jlookup fields ("rssi".data) with
     | none => Except.ok (none : Option ℤ)
     | some (JVal.jnum q) =>
       if q.den = 1 then Except.ok (some q.num) else Except.error PyErr.typeError
     | some _ => Except.error PyErr.typeError) >>= fun rssi =>
    (match jlookup fields ("location".data) with
     | none => Except.ok (none : Option (ℚ × ℚ))
     | some (JVal.jobj lfs) =>
       (match jlookup lfs ("latitude".data), jlookup lfs ("longitude".data) with
        | some (JVal.jnum la), some (JVal.jnum lo) => Except.ok (some (la, lo))
        | none, _ => Except.ok none
        | _, none => Except.ok none
        | _, _ => Except.error PyErr.typeError)
     | some _ => Except.error PyErr.attributeError) >>= fun loc =>
    Except.ok { rssi := rssi, location := loc }
  | _ => Except.error PyErr.attributeError

/-- The gateway list (`rx_metadata` / `rxInfo`) from JSON: must be an
array of records. -/
def toGateways (v : JVal) : Except PyErr (List Gateway) :=
  match v with
  | JVal.jarr elems => elems.mapM toGateway
  | _ => Except.error PyErr.typeError

/-! Base64, as used by `base64.b64decode` / `b64encode` with the
standard alphabet. -/

/-- The value of a standard-alphabet base64 character. -/
def b64CharVal (c : Char) : Option ℕ :=
  if 'A' ≤ c ∧ c ≤ 'Z' then some (c.toNat - 65)
  else if 'a' ≤ c ∧ c ≤ 'z' then some (c.toNat - 97 + 26)
  else if '0' ≤ c ∧ c ≤ '9' then some (c.toNat - 48 + 52)
  else if c = '+' then some 62
  else if c = '/' then some 63
  else none

/-- The standard-alphabet base64 character of a 6-bit value. -/
def b64Char (n : ℕ) : Char :=
  if n < 26 then Char.ofNat (65 + n)
  else if n < 52 then Char.ofNat (97 + (n - 26))
  else if n < 62 then Char.ofNat (48 + (n - 52))
  else if n = 62 then '+'
  else '/'

/-- Decode base64 quads (input already restricted to alphabet and
padding characters); padding is accepted only at the very end, a
leftover of fewer than four characters is `binascii.Error`. -/
def b64DecodeGroups : List Char → Except PyErr (List ℕ)
  | [] => Except.ok []
  | c1 :: c2 :: c3 :: c4 :: rest =>
    (match b64CharVal c1, b64CharVal c2 with
     | some v1, some v2 =>
       if c3 = '=' ∧ c4 = '=' ∧ rest = [] then
         Except.ok [(v1 <<< 2) + (v2 >>> 4)]
       else
         match b64CharVal c3 with
         | some v3 =>
           if c4 = '=' ∧ rest = [] then
             Except.ok [(v1 <<< 2) + (v2 >>> 4), ((v2 &&& 15) <<< 4) + (v3 >>> 2)]
           else
             match b64CharVal c4 with
             | some v4 =>
               b64DecodeGroups rest >>= fun tail =>
               Except.ok ([(v1 <<< 2) + (v2 >>> 4),
                           ((v2 &&& 15) <<< 4) + (v3 >>> 2),
                           ((v3 &&& 3) <<< 6) + v4] ++ tail)
             | none => Except.error PyErr.binasciiError
         | none => Except.error PyErr.binasciiError
     | _, _ => Except.error PyErr.binasciiError)
  | _ => Except.error PyErr.binasciiError

/-- `base64.b64decode(s)` with default arguments: characters outside
the alphabet and padding are discarded, then the remainder must be
whole quads (`binascii.Error` otherwise). -/
def b64decode (s : List Char) : Except PyErr (List ℕ) :=
  b64DecodeGroups (s.filter fun c => (b64CharVal c).isSome || c == '=')

/-- `base64.b64encode` over a byte list. -/
def b64encode : List ℕ → List Char
  | [] => []
  | [b1] => [b64Char (b1 >>> 2), b64Char ((b1 &&& 3) <<< 4), '=', '=']
  | [b1, b2] => [b64Char (b1 >>> 2), b64Char (((b1 &&& 3) <<< 4) + (b2 >>> 4)),
                 b64Char ((b2 &&& 15) <<< 2), '=']
  | b1 :: b2 :: b3 :: rest =>
    b64Char (b1 >>> 2) :: b64Char (((b1 &&& 3) <<< 4) + (b2 >>> 4)) ::
    b64Char (((b2 &&& 15) <<< 2) + (b3 >>> 6)) :: b64Char (b3 &&& 63) ::
    b64encode rest

/-- `bytes(buffer)`: every entry must be an int in [0, 256), else
`ValueError` (server.py lines 272 and 317). -/
def bytesOfList : List ℤ → Except PyErr (List ℕ)
  | [] => Except.ok []
  | x :: rest =>
    if 0 ≤ x ∧ x < 256 then
      bytesOfList rest >>= fun t => Except.ok (x.toNat :: t)
    else Except.error PyErr.valueError

/-- Python `str.replace(old, new)` for a nonempty `old`: replace every
non-overlapping occurrence, scanning left to right (server.py lines 266
and 311).  The recursion is driven by a fuel argument so that the
function reduces structurally; each step consumes at least one
character, so fuel equal to the string length is always enough. -/
def pyReplaceAux (p : Char) (ps rep : List Char) : ℕ → List Char → List Char
  | _, [] => []
  | 0, s => s
  | fuel + 1, c :: rest =>
    if (p :: ps).isPrefixOf (c :: rest) then
      rep ++ pyReplaceAux p ps rep fuel (rest.drop ps.length)
    else
      c :: pyReplaceAux p ps rep fuel rest

/-- `topic.replace(pat, rep)`; the source only ever passes nonempty
patterns, an empty pattern is returned unchanged here. -/
def pyReplace (s pat rep : List Char) : List Char :=
  match pat with
  | [] => s
  | p :: ps => pyReplaceAux p ps rep s.length s

/-- `out.buffer` access `data['buffer']` in the parsers: `KeyError`
when `process` did not build a buffer (unreachable after the port
check). -/
def getBuffer (out : Output) : Except PyErr (List ℤ) :=
  match out.buffer with
  | some b => Except.ok b
  | none => Except.error (PyErr.keyError ("buffer".data))

/-- `parser_tts3(config, topic, payload)` (server.py lines 235-278).
The body argument is the result of `json.loads`: `none` models a JSON
parse failure, which the source catches, returning `[False, False]` —
embedded as `Except.ok none`.  The outbound body is kept as a JSON
value (the source serializes it with `json.dumps`). -/
def parser_tts3 (dist : ℚ × ℚ → ℚ × ℚ → ℕ) (topic : List Char)
    (body : Option JVal) : Except PyErr (Option (List Char × JVal)) :=
  match body with
  | none => Except.ok none
  | some payload =>
    pyContains payload ("uplink_message".data) >>= fun mem =>
    if mem = false then Except.ok none else
    pySubscript payload ("uplink_message".data) >>= fun um =>
    pySubscript um ("f_port".data) >>= fun portJ =>
    if pyEqInt portJ 1 = false ∧ pyEqInt portJ 11 = false then Except.ok none else
    pySubscript um ("f_cnt".data) >>= fun seqJ =>
    toIntJ seqJ >>= fun sequence_id =>
    pySubscript um ("rx_metadata".data) >>= fun gwJ =>
    toGateways gwJ >>= fun gateways =>
    pySubscript um ("frm_payload".data) >>= fun plJ =>
    toStrJ plJ >>= fun plS =>
    b64decode plS >>= fun data =>
    process dist data (jvalNum portJ) sequence_id gateways >>= fun out =>
    getBuffer out >>= fun buf =>
    bytesOfList buf >>= fun bts =>
    Except.ok (some
      (pyReplace topic ("/up".data) ("/down/replace".data),
       JVal.jobj [("downlinks".data, JVal.jarr [JVal.jobj
         [("f_port".data, JVal.jnum (jvalNum portJ + 1)),
          ("frm_payload".data, JVal.jstr (b64encode bts)),
          ("priority".data, JVal.jstr ("HIGH".data))]])]))

/-- `parser_cs34(config, topic, payload)` (server.py lines 280-323).
Version 4 is detected by the presence of `deviceInfo`; a missing
`fPort` defaults to 0 via `.get`. -/
def parser_cs34 (dist : ℚ × ℚ → ℚ × ℚ → ℕ) (topic : List Char)
    (body : Option JVal) : Except PyErr (Option (List Char × JVal)) :=
  match body with
  | none => Except.ok none
  | some payload =>
    pyContains payload ("deviceInfo".data) >>= fun hasDev =>
    let version : ℕ := if hasDev then 4 else 3
    pyGetD payload ("fPort".data) (JVal.jnum 0) >>= fun portJ =>
    if pyEqInt portJ 1 = false ∧ pyEqInt portJ 11 = false then Except.ok none else
    pySubscript payload ("fCnt".data) >>= fun seqJ =>
    toIntJ seqJ >>= fun sequence_id =>
    pySubscript payload ("rxInfo".data) >>= fun gwJ =>
    toGateways gwJ >>= fun gateways =>
    pySubscript payload ("data".data) >>= fun plJ =>
    toStrJ plJ >>= fun plS =>
    b64decode plS >>= fun data =>
    process dist data (jvalNum portJ) sequence_id gateways >>= fun out =>
    getBuffer out >>= fun buf =>
    bytesOfList buf >>= fun bts =>
    let t := pyReplace topic ("/event/up".data) ("/command/down".data)
    let base : List (List Char × JVal) :=
      [("confirmed".data, JVal.jbool false),
       ("fPort".data, JVal.jnum (jvalNum portJ + 1)),
       ("data".data, JVal.jstr (b64encode bts))]
    if version = 4 then
      pySubscript payload ("deviceInfo".data) >>= fun di =>
      pySubscript di ("devEui".data) >>= fun eui =>
      Except.ok (some (t, JVal.jobj (base ++ [("devEui".data, eui)])))
    else
      Except.ok (some (t, JVal.jobj base))

/-! Spec-side definitions, written from the specification's wording, to
be compared against the embedded source. -/

/-- Round half to even of an exact rational (the rounding rule of
Python 3 `round`). -/
def roundHalfToEven (q : ℚ) : ℤ :=
  if q - ⌊q⌋ < 1 / 2 then ⌊q⌋
  else if 1 / 2 < q - ⌊q⌋ then ⌊q⌋ + 1
  else if Even ⌊q⌋ then ⌊q⌋ else ⌊q⌋ + 1

/-- Round half away from zero for a nonnegative rational, "as produced
by standard rounding of positive values" in the claim's words. -/
def roundHalfAwayPos (q : ℚ) : ℤ := ⌊q + 1 / 2⌋

/-- The spec's `clamp(x, lo, hi)`. -/
def specClamp (x lo hi : ℤ) : ℤ := min hi (max lo x)

/-- The spec's port-11 16-bit encoded distance of a raw distance in
meters, with the rounding rule corrected to round-half-to-even. -/
def spec_encoded16 (d : ℕ) : ℤ := specClamp (roundHalfToEven ((d : ℚ) / 10)) 1 65535

/-- The spec's port-1 encoded distance byte of a raw distance in
meters, with the rounding rule corrected to round-half-to-even. -/
def spec_encodedByte (d : ℕ) : ℤ := specClamp (roundHalfToEven ((d : ℚ) / 250)) 1 128

/-- Modelled from the spec: the claim's "inbound topic with the
trailing pattern replaced" — substitution of the pattern only where it
occurs as a suffix of the topic. -/
def replaceTrailing (t pat rep : List Char) : List Char :=
  if pat.isSuffixOf t then t.take (t.length - pat.length) ++ rep else t

/-! Helper definitions used to state the evaluated form of `process`
on a ten-byte payload. -/

/-- The GPS block `process` builds when `has_gps` holds (server.py
lines 164-172), as a function of the first eight payload bytes. -/
def gpsOf (b0 b1 b2 b3 b4 b5 b6 b7 : ℕ) (hdop : ℚ) : GpsData :=
  { latitude := (if (b0 >>> 6) &&& 1 ≠ 0 then (-1 : ℚ) else 1) *
      (((((b0 &&& 0x3f) <<< 17) + (b1 <<< 9) + (b2 <<< 1) + (b3 >>> 7) : ℕ) : ℚ) * 108 + 53) / 10000000
    longitude := (if (b0 >>> 7) &&& 1 ≠ 0 then (-1 : ℚ) else 1) *
      (((((b3 &&& 0x7f) <<< 16) + (b4 <<< 8) + b5 : ℕ) : ℚ) * 215 + 107) / 10000000
    altitude := (((b6 <<< 8) + b7 : ℕ) : ℤ) - 1000
    accuracy := (hdop * 5 + 5) / 10 }

/-- The value of `process` on a ten-byte payload (all subscripts
succeed), used as the right-hand side of the evaluation lemma
`process_ten`. -/
def procOut10 (dist : ℚ × ℚ → ℚ × ℚ → ℕ) (b0 b1 b2 b3 b4 b5 b6 b7 b8 b9 : ℕ)
    (port : ℚ) (sequence_id : ℤ) (gateways : List Gateway) : Output :=
  let hdop : ℚ := (b8 : ℚ) / 10
  let has_gps : Bool := if hdop ≤ 2 ∧ 5 ≤ b9 then true else false
  let gps : Option GpsData :=
    if has_gps then some (gpsOf b0 b1 b2 b3 b4 b5 b6 b7 hdop) else none
  let st := aggregateGateways dist (gps.map fun g => (g.latitude, g.longitude))
    has_gps gateways
  let agg : AggregateResult :=
    { hasFix := has_gps
      minSignal := st.min_rssi
      maxSignal := st.max_rssi
      minDistance := st.min_distance
      maxDistance := st.max_distance
      gatewayCount := gateways.length }
  { hdop := hdop
    sats := b9
    has_gps := has_gps
    gps := gps
    agg := agg
    buffer := buildBuffer agg sequence_id port }

/-! Concrete message bodies used by the per-claim evaluations. -/

/-- A structurally valid TTS3 envelope whose `frm_payload` decodes to
the empty byte string (shorter than 10 bytes). -/
def bodyTTSshort : JVal := JVal.jobj [("uplink_message".data, JVal.jobj
  [("f_port".data, JVal.jnum 1), ("f_cnt".data, JVal.jnum 0),
   ("rx_metadata".data, JVal.jarr []),
   ("frm_payload".data, JVal.jstr ("".data))])]

/-- A structurally valid ChirpStack envelope whose `data` decodes to
the empty byte string (shorter than 10 bytes). -/
def bodyCSshort : JVal := JVal.jobj
  [("fPort".data, JVal.jnum 1), ("fCnt".data, JVal.jnum 0),
   ("rxInfo".data, JVal.jarr []),
   ("data".data, JVal.jstr ("".data))]

/-- A TTS3 envelope whose `uplink_message` object lacks the required
field `f_port`. -/
def bodyTTSnoPort : JVal := JVal.jobj [("uplink_message".data, JVal.jobj [])]

/-- A ChirpStack envelope with a valid port but no `fCnt` field. -/
def bodyCSnoCnt : JVal := JVal.jobj [("fPort".data, JVal.jnum 11)]

/-- A fully valid TTS3 envelope: port 1, sequence 0, no gateways, and
a ten-byte all-zero payload (base64 `AAAAAAAAAAAAAA==`). -/
def bodyTTSok : JVal := JVal.jobj [("uplink_message".data, JVal.jobj
  [("f_port".data, JVal.jnum 1), ("f_cnt".data, JVal.jnum 0),
   ("rx_metadata".data, JVal.jarr []),
   ("frm_payload".data, JVal.jstr ("AAAAAAAAAAAAAA==".data))])]

/-- A fully valid ChirpStack v3 envelope: port 1, sequence 0, no
gateways, and a ten-byte all-zero payload. -/
def bodyCSok : JVal := JVal.jobj
  [("fPort".data, JVal.jnum 1), ("fCnt".data, JVal.jnum 0),
   ("rxInfo".data, JVal.jarr []),
   ("data".data, JVal.jstr ("AAAAAAAAAAAAAA==".data))]

/-- The downlink body the TTS3 adapter produces for `bodyTTSok`:
no fix, so the distance bytes are zero and the buffer is
`[0, 144, 0, 0, 0, 0]`, base64 `AJAAAAAA`. -/
def downlinkTTSok : JVal := JVal.jobj [("downlinks".data, JVal.jarr [JVal.jobj
  [("f_port".data, JVal.jnum 2),
   ("frm_payload".data, JVal.jstr ("AJAAAAAA".data)),
   ("priority".data, JVal.jstr ("HIGH".data))]])]

/-- The downlink body the ChirpStack adapter produces for `bodyCSok`. -/
def downlinkCSok : JVal := JVal.jobj
  [("confirmed".data, JVal.jbool false),
   ("fPort".data, JVal.jnum 2),
   ("data".data, JVal.jstr ("AJAAAAAA".data))]

/-! Shared lemmas. -/

/-- Binding a successful `Except` computation runs the continuation. -/
theorem ok_bind {α β : Type} (a : α) (f : α → Except PyErr β) :
    (Except.ok a >>= f) = f a := rfl

/-- `pure` for `Except` is `Except.ok`. -/
theorem pure_ok {α : Type} (a : α) : (pure a : Except PyErr α) = Except.ok a := rfl

/-- A successful bind factors through a successful first step. -/
theorem except_bind_ok {α β : Type} {e : Except PyErr α} {f : α → Except PyErr β}
    {v : β} (h : (e >>= f) = Except.ok v) : ∃ a, e = Except.ok a ∧ f a = Except.ok v := by
  cases e with
  | ok a => exact ⟨a, rfl, h⟩
  | error ε => exact absurd h (by simp [Bind.bind, Except.bind])

/-- Evaluation of `process` on a ten-byte payload: every subscript
succeeds and the result is `procOut10`. -/
theorem process_ten (dist : ℚ × ℚ → ℚ × ℚ → ℕ) (b0 b1 b2 b3 b4 b5 b6 b7 b8 b9 : ℕ)
    (port : ℚ) (seq : ℤ) (gws : List Gateway) :
    process dist [b0, b1, b2, b3, b4, b5, b6, b7, b8, b9] port seq gws
      = Except.ok (procOut10 dist b0 b1 b2 b3 b4 b5 b6 b7 b8 b9 port seq gws) := by
  have e0 : pyGet [b0, b1, b2, b3, b4, b5, b6, b7, b8, b9] 0 = Except.ok b0 := rfl
  have e1 : pyGet [b0, b1, b2, b3, b4, b5, b6, b7, b8, b9] 1 = Except.ok b1 := rfl
  have e2 : pyGet [b0, b1, b2, b3, b4, b5, b6, b7, b8, b9] 2 = Except.ok b2 := rfl
  have e3 : pyGet [b0, b1, b2, b3, b4, b5, b6, b7, b8, b9] 3 = Except.ok b3 := rfl
  have e4 : pyGet [b0, b1, b2, b3, b4, b5, b6, b7, b8, b9] 4 = Except.ok b4 := rfl
  have e5 : pyGet [b0, b1, b2, b3, b4, b5, b6, b7, b8, b9] 5 = Except.ok b5 := rfl
  have e6 : pyGet [b0, b1, b2, b3, b4, b5, b6, b7, b8, b9] 6 = Except.ok b6 := rfl
  have e7 : pyGet [b0, b1, b2, b3, b4, b5, b6, b7, b8, b9] 7 = Except.ok b7 := rfl
  have e8 : pyGet [b0, b1, b2, b3, b4, b5, b6, b7, b8, b9] 8 = Except.ok b8 := rfl
  have e9 : pyGet [b0, b1, b2, b3, b4, b5, b6, b7, b8, b9] 9 = Except.ok b9 := rfl
  by_cases hP : ((b8 : ℚ)) / 10 ≤ 2 ∧ 5 ≤ b9
  · simp only [process, procOut10, gpsOf, e0, e1, e2, e3, e4, e5, e6, e7, e8, e9,
      pure_ok, ok_bind, if_pos hP, if_true, Bool.false_eq_true, if_false]
  · simp only [process, procOut10, gpsOf, e0, e1, e2, e3, e4, e5, e6, e7, e8, e9,
      pure_ok, ok_bind, if_neg hP, if_true, Bool.false_eq_true, if_false]

/-- The floor of an exact rational quotient of naturals is natural
division. -/
theorem floor_nat_div (n d : ℕ) : ⌊((n : ℚ)) / ((d : ℚ))⌋ = ((n / d : ℕ) : ℤ) := by
  rw [Rat.floor_natCast_div_natCast]
  omega

/-- The fractional part of an exact rational quotient of naturals. -/
theorem frac_nat_div (n d : ℕ) (hd : 0 < d) :
    ((n : ℚ)) / d - ((n / d : ℕ) : ℚ) = ((n % d : ℕ) : ℚ) / d := by
  have hd0 : (d : ℚ) ≠ 0 := Nat.cast_ne_zero.mpr hd.ne'
  field_simp
  have h2 : ((d * (n / d) + n % d : ℕ) : ℚ) = (n : ℚ) := by
    exact_mod_cast congrArg (fun k : ℕ => (k : ℚ)) (Nat.div_add_mod n d)
  push_cast at h2
  linarith

/-- Comparing the fractional part `r / d` with one half is comparing
`2 r` with `d`. -/
theorem half_lt_iff (r d : ℕ) (hd : 0 < d) :
    (((r : ℚ)) / d < 1 / 2 ↔ 2 * r < d) ∧ ((1 : ℚ) / 2 < (r : ℚ) / d ↔ d < 2 * r) := by
  have hd0 : (0 : ℚ) < d := by exact_mod_cast hd
  constructor
  · rw [div_lt_div_iff₀ hd0 (by norm_num : (0 : ℚ) < 2)]
    constructor
    · intro h
      have h2 : ((2 * r : ℕ) : ℚ) < ((d : ℕ) : ℚ) := by push_cast; linarith
      exact_mod_cast h2
    · intro h
      have h2 : ((2 * r : ℕ) : ℚ) < ((d : ℕ) : ℚ) := by exact_mod_cast h
      push_cast at h2
      linarith
  · rw [div_lt_div_iff₀ (by norm_num : (0 : ℚ) < 2) hd0]
    constructor
    · intro h
      have h2 : ((d : ℕ) : ℚ) < ((2 * r : ℕ) : ℚ) := by push_cast; linarith
      exact_mod_cast h2
    · intro h
      have h2 : ((d : ℕ) : ℚ) < ((2 * r : ℕ) : ℚ) := by exact_mod_cast h
      push_cast at h2
      linarith

/-- The integer rounding of the source, `pyRoundDiv`, coincides with
the spec-side round-half-to-even of the exact rational quotient. -/
theorem pyRoundDiv_eq (n d : ℕ) (hd : 0 < d) :
    ((pyRoundDiv n d : ℕ) : ℤ) = roundHalfToEven ((n : ℚ) / d) := by
  have hfl := floor_nat_div n d
  obtain ⟨hlt, hgt⟩ := half_lt_iff (n % d) d hd
  have hval : roundHalfToEven ((n : ℚ) / d)
      = (if ((n % d : ℕ) : ℚ) / d < 1 / 2 then ((n / d : ℕ) : ℤ)
         else if (1 : ℚ) / 2 < ((n % d : ℕ) : ℚ) / d then ((n / d : ℕ) : ℤ) + 1
         else if Even ((n / d : ℕ) : ℤ) then ((n / d : ℕ) : ℤ) else ((n / d : ℕ) : ℤ) + 1) := by
    rw [roundHalfToEven, hfl,
      show (n : ℚ) / d - ((((n / d : ℕ) : ℤ)) : ℚ) = ((n % d : ℕ) : ℚ) / d from by
        rw [Int.cast_natCast]; exact frac_nat_div n d hd]
  rw [hval]
  simp only [pyRoundDiv]
  rcases Nat.lt_trichotomy (2 * (n % d)) d with hc | hc | hc
  · rw [if_pos hc, if_pos (hlt.mpr hc)]
  · have hq1 : ¬(((n % d : ℕ) : ℚ) / d < 1 / 2) := by rw [hlt]; omega
    have hq2 : ¬((1 : ℚ) / 2 < ((n % d : ℕ) : ℚ) / d) := by rw [hgt]; omega
    rw [if_neg (show ¬(2 * (n % d) < d) by omega),
      if_neg (show ¬(d < 2 * (n % d)) by omega), if_neg hq1, if_neg hq2]
    by_cases he : (n / d) % 2 = 0
    · have hev : Even ((n / d : ℕ) : ℤ) :=
        (Int.even_coe_nat (n / d)).mpr (Nat.even_iff.mpr he)
      rw [if_pos he, if_pos hev]
    · have hnev : ¬Even ((n / d : ℕ) : ℤ) := fun hcon =>
        he (Nat.even_iff.mp ((Int.even_coe_nat (n / d)).mp hcon))
      rw [if_neg he, if_neg hnev]
      push_cast
      ring
  · have hg1 : ¬(((n % d : ℕ) : ℚ) / d < 1 / 2) := by rw [hlt]; omega
    rw [if_neg (show ¬(2 * (n % d) < d) by omega), if_pos hc, if_neg hg1,
      if_pos (hgt.mpr hc)]
    push_cast
    ring

/-- Casting `constrain` to the integers gives the spec-side clamp. -/
theorem constrain_cast (v lo hi : ℕ) :
    ((constrain v lo hi : ℕ) : ℤ) = specClamp (v : ℤ) lo hi := by
  simp [constrain, specClamp, Nat.cast_min, Nat.cast_max]

/-- The port-11 encoded distance of the source equals the spec-side
`spec_encoded16`. -/
theorem encoded16_eq (d : ℕ) :
    ((constrain (pyRoundDiv d 10) 1 65535 : ℕ) : ℤ) = spec_encoded16 d := by
  rw [constrain_cast, pyRoundDiv_eq d 10 (by norm_num)]
  norm_num [spec_encoded16]

/-- The port-1 encoded distance byte of the source equals the
spec-side `spec_encodedByte`. -/
theorem encodedByte_eq (d : ℕ) :
    ((constrain (pyRoundDiv d 250) 1 128 : ℕ) : ℤ) = spec_encodedByte d := by
  rw [constrain_cast, pyRoundDiv_eq d 250 (by norm_num)]
  norm_num [spec_encodedByte]

/-- `constrain` yields a value inside the clamp interval. -/
theorem constrain_bounds (v lo hi : ℕ) (h : lo ≤ hi) :
    lo ≤ constrain v lo hi ∧ constrain v lo hi ≤ hi := by
  simp [constrain]
  omega

/-- Big-endian byte split of a 16-bit value, cast to the integers. -/
theorem split16 (v : ℕ) (hv : v ≤ 65535) :
    (((v / 256 : ℕ) : ℤ) % 256 = (v : ℤ) / 256) ∧ ((v % 256 : ℕ) : ℤ) = (v : ℤ) % 256 := by
  constructor <;> omega

/-- `bytes(buffer)` succeeds when every entry is a byte value. -/
theorem bytesOfList_ok (l : List ℤ) (h : ∀ x ∈ l, 0 ≤ x ∧ x ≤ 255) :
    ∃ bs, bytesOfList l = Except.ok bs := by
  induction l with
  | nil => exact ⟨[], rfl⟩
  | cons x rest ih =>
    obtain ⟨bs, hbs⟩ := ih fun y hy => h y (List.mem_cons_of_mem x hy)
    have hx := h x (List.mem_cons_self x rest)
    refine ⟨x.toNat :: bs, ?_⟩
    simp only [bytesOfList, if_pos (show (0 : ℤ) ≤ x ∧ x < 256 by omega), hbs, ok_bind]

/-- Whenever the TTS3 adapter returns a downlink, its topic is the
inbound topic with every occurrence of the pattern replaced. -/
theorem tts3_topic_shape (dist : ℚ × ℚ → ℚ × ℚ → ℕ) (topic : List Char)
    (body : Option JVal) (t : List Char) (dl : JVal)
    (h : parser_tts3 dist topic body = Except.ok (some (t, dl))) :
    t = pyReplace topic ("/up".data) ("/down/replace".data) := by
  cases body with
  | none => exact absurd h (by simp [parser_tts3])
  | some payload =>
    simp only [parser_tts3] at h
    obtain ⟨mem, -, h⟩ := except_bind_ok h
    by_cases hm : mem = false
    · rw [if_pos hm] at h
      exact absurd h (by simp)
    · rw [if_neg hm] at h
      obtain ⟨um, -, h⟩ := except_bind_ok h
      obtain ⟨portJ, -, h⟩ := except_bind_ok h
      by_cases hp : pyEqInt portJ 1 = false ∧ pyEqInt portJ 11 = false
      · rw [if_pos hp] at h
        exact absurd h (by simp)
      · rw [if_neg hp] at h
        obtain ⟨seqJ, -, h⟩ := except_bind_ok h
        obtain ⟨sid, -, h⟩ := except_bind_ok h
        obtain ⟨gwJ, -, h⟩ := except_bind_ok h
        obtain ⟨gws, -, h⟩ := except_bind_ok h
        obtain ⟨plJ, -, h⟩ := except_bind_ok h
        obtain ⟨plS, -, h⟩ := except_bind_ok h
        obtain ⟨data, -, h⟩ := except_bind_ok h
        obtain ⟨out, -, h⟩ := except_bind_ok h
        obtain ⟨buf, -, h⟩ := except_bind_ok h
        obtain ⟨bts, -, h⟩ := except_bind_ok h
        simp only [Except.ok.injEq, Option.some.injEq, Prod.mk.injEq] at h
        exact h.1.symm

/-- Whenever the ChirpStack adapter returns a downlink, its topic is
the inbound topic with every occurrence of the pattern replaced. -/
theorem cs34_topic_shape (dist : ℚ × ℚ → ℚ × ℚ → ℕ) (topic : List Char)
    (body : Option JVal) (t : List Char) (dl : JVal)
    (h : parser_cs34 dist topic body = Except.ok (some (t, dl))) :
    t = pyReplace topic ("/event/up".data) ("/command/down".data) := by
  cases body with
  | none => exact absurd h (by simp [parser_cs34])
  | some payload =>
    simp only [parser_cs34] at h
    obtain ⟨hasDev, -, h⟩ := except_bind_ok h
    obtain ⟨portJ, -, h⟩ := except_bind_ok h
    by_cases hp : pyEqInt portJ 1 = false ∧ pyEqInt portJ 11 = false
    · rw [if_pos hp] at h
      exact absurd h (by simp)
    · rw [if_neg hp] at h
      obtain ⟨seqJ, -, h⟩ := except_bind_ok h
      obtain ⟨sid, -, h⟩ := except_bind_ok h
      obtain ⟨gwJ, -, h⟩ := except_bind_ok h
      obtain ⟨gws, -, h⟩ := except_bind_ok h
      obtain ⟨plJ, -, h⟩ := except_bind_ok h
      obtain ⟨plS, -, h⟩ := except_bind_ok h
      obtain ⟨data, -, h⟩ := except_bind_ok h
      obtain ⟨out, -, h⟩ := except_bind_ok h
      obtain ⟨buf, -, h⟩ := except_bind_ok h
      obtain ⟨bts, -, h⟩ := except_bind_ok h
      by_cases hv : (if hasDev = true then (4 : ℕ) else 3) = 4
      · rw [if_pos hv] at h
        obtain ⟨di, -, h⟩ := except_bind_ok h
        obtain ⟨eui, -, h⟩ := except_bind_ok h
        simp only [Except.ok.injEq, Option.some.injEq, Prod.mk.injEq] at h
        exact h.1.symm
      · rw [if_neg hv] at h
        simp only [Except.ok.injEq, Option.some.injEq, Prod.mk.injEq] at h
        exact h.1.symm

/-- The sign-bit test of the source equals testing the bit
arithmetically. -/
theorem shift_and_arith (b k : ℕ) : ((b >>> k) &&& 1 ≠ 0) ↔ b / 2 ^ k % 2 = 1 := by
  rw [Nat.shiftRight_eq_div_pow, Nat.and_one_is_mod]
  omega

/-- The packed latitude magnitude, written with plain arithmetic. -/
theorem encLat_arith (b0 b1 b2 b3 : ℕ) :
    (b0 &&& 0x3f) <<< 17 + b1 <<< 9 + b2 <<< 1 + b3 >>> 7
      = b0 % 2 ^ 6 * 2 ^ 17 + b1 * 2 ^ 9 + b2 * 2 + b3 / 2 ^ 7 := by
  rw [Nat.shiftRight_eq_div_pow, Nat.shiftLeft_eq, Nat.shiftLeft_eq, Nat.shiftLeft_eq,
    show (0x3f : ℕ) = 2 ^ 6 - 1 by norm_num, Nat.and_pow_two_sub_one_eq_mod, pow_one]

/-- The packed longitude magnitude, written with plain arithmetic. -/
theorem encLon_arith (b3 b4 b5 : ℕ) :
    (b3 &&& 0x7f) <<< 16 + b4 <<< 8 + b5
      = b3 % 2 ^ 7 * 2 ^ 16 + b4 * 2 ^ 8 + b5 := by
  rw [Nat.shiftLeft_eq, Nat.shiftLeft_eq,
    show (0x7f : ℕ) = 2 ^ 7 - 1 by norm_num, Nat.and_pow_two_sub_one_eq_mod]

/-! The claims. -/

/-- Claim C1, counterexample (corrected): the source rounds half to
even, not half away from zero.  For `minDistance = 12345` m on port 11
the encoded 16-bit value is `round(1234.5) = 1234`, split as `hi = 4`,
`lo = 210`; the claim's round-half-away-from-zero rule would give 1235
with `lo = 211`, and `210 ≠ 211`. -/
theorem C1_counterexample :
    buildBuffer
      { hasFix := true, minSignal := -80, maxSignal := -60,
        minDistance := 12345, maxDistance := 12345, gatewayCount := 1 } 0 11
      = some [0, 120, 140, 4, 210, 4, 210, 1]
    ∧ specClamp (roundHalfAwayPos ((12345 : ℚ) / 10)) 1 65535 = 1235
    ∧ (1235 : ℤ) / 256 = 4 ∧ (1235 : ℤ) % 256 = 211
    ∧ ((210 : ℤ) ≠ 211) := by
  refine ⟨by decide, ?_, by decide, by decide, by decide⟩
  with_unfolding_all decide

/-- Claim C1, amended (corrected): for every AggregateResult with
hasFix true, the port-11 16-bit encoded distances equal
`clamp(round(rawMeters / 10), 1, 65535)` split big-endian, and the
port-1 distance bytes equal `clamp(round(meters / 250), 1, 128)`,
where round is round-half-to-even (Python 3 `round`); in particular
`minDistance = 12345` m encodes to 1234 on port 11, split as `hi = 4`,
`lo = 210`. -/
theorem C1_amended_rounding (agg : AggregateResult) (seq : ℤ) (h : agg.hasFix = true) :
    buildBuffer agg seq 11 = some
      [seq % 256, (agg.minSignal + 200) % 256, (agg.maxSignal + 200) % 256,
       spec_encoded16 agg.minDistance / 256, spec_encoded16 agg.minDistance % 256,
       spec_encoded16 agg.maxDistance / 256, spec_encoded16 agg.maxDistance % 256,
       (agg.gatewayCount : ℤ) % 256]
    ∧ buildBuffer agg seq 1 = some
      [seq % 256, (agg.minSignal + 200) % 256, (agg.maxSignal + 200) % 256,
       spec_encodedByte agg.minDistance, spec_encodedByte agg.maxDistance,
       (agg.gatewayCount : ℤ) % 256] := by
  have hv1 := (constrain_bounds (pyRoundDiv agg.minDistance 10) 1 65535 (by norm_num)).2
  have hv2 := (constrain_bounds (pyRoundDiv agg.maxDistance 10) 1 65535 (by norm_num)).2
  constructor
  · rw [show buildBuffer agg seq 11 = some
        [seq % 256, (agg.minSignal + 200) % 256, (agg.maxSignal + 200) % 256,
         ((constrain (pyRoundDiv agg.minDistance 10) 1 65535 / 256 : ℕ) : ℤ) % 256,
         ((constrain (pyRoundDiv agg.minDistance 10) 1 65535 % 256 : ℕ) : ℤ),
         ((constrain (pyRoundDiv agg.maxDistance 10) 1 65535 / 256 : ℕ) : ℤ) % 256,
         ((constrain (pyRoundDiv agg.maxDistance 10) 1 65535 % 256 : ℕ) : ℤ),
         (agg.gatewayCount : ℤ) % 256] from by
      simp only [buildBuffer, if_neg (show ¬(11 : ℚ) = 1 by norm_num),
        eq_self_iff_true, if_true, if_pos h]]
    rw [← encoded16_eq agg.minDistance, ← encoded16_eq agg.maxDistance,
      (split16 _ hv1).1, (split16 _ hv1).2, (split16 _ hv2).1, (split16 _ hv2).2]
  · rw [show buildBuffer agg seq 1 = some
        [seq % 256, (agg.minSignal + 200) % 256, (agg.maxSignal + 200) % 256,
         ((constrain (pyRoundDiv agg.minDistance 250) 1 128 : ℕ) : ℤ),
         ((constrain (pyRoundDiv agg.maxDistance 250) 1 128 : ℕ) : ℤ),
         (agg.gatewayCount : ℤ) % 256] from by
      simp only [buildBuffer, eq_self_iff_true, if_true, if_pos h]]
    rw [← encodedByte_eq agg.minDistance, ← encodedByte_eq agg.maxDistance]

/-- Witness for `C1_amended_rounding` at a concrete aggregate. -/
theorem C1_amended_rounding_witness :
    buildBuffer
      { hasFix := true, minSignal := -80, maxSignal := -60,
        minDistance := 12345, maxDistance := 800, gatewayCount := 2 } 7 11 = some
      [(7 : ℤ) % 256, ((-80 : ℤ) + 200) % 256, ((-60 : ℤ) + 200) % 256,
       spec_encoded16 12345 / 256, spec_encoded16 12345 % 256,
       spec_encoded16 800 / 256, spec_encoded16 800 % 256,
       ((2 : ℕ) : ℤ) % 256]
    ∧ buildBuffer
      { hasFix := true, minSignal := -80, maxSignal := -60,
        minDistance := 12345, maxDistance := 800, gatewayCount := 2 } 7 1 = some
      [(7 : ℤ) % 256, ((-80 : ℤ) + 200) % 256, ((-60 : ℤ) + 200) % 256,
       spec_encodedByte 12345, spec_encodedByte 800,
       ((2 : ℕ) : ℤ) % 256] :=
  C1_amended_rounding
    { hasFix := true, minSignal := -80, maxSignal := -60,
      minDistance := 12345, maxDistance := 800, gatewayCount := 2 } 7 rfl

/-- Claim C2 (code_bug): a structurally valid envelope whose decoded
payload is shorter than 10 bytes is not dropped; `data[8]` raises an
uncaught `IndexError` in both envelope variants, contradicting the
claim's "dropped with no downlink and no exception". -/
theorem C2_short_payload_raises :
    parser_tts3 (fun _ _ => 0) ("v3/x/devices/d/up".data) (some bodyTTSshort)
      = Except.error PyErr.indexError
    ∧ parser_cs34 (fun _ _ => 0) ("application/1/device/d/event/up".data) (some bodyCSshort)
      = Except.error PyErr.indexError
    ∧ (Except.error PyErr.indexError : Except PyErr (Option (List Char × JVal)))
      ≠ Except.ok none :=
  ⟨rfl, rfl, fun h => Except.noConfusion h⟩

/-- Claim C3 (code_bug): a valid JSON body that lacks a required inner
field is not dropped; the parsers raise an uncaught `KeyError`
(`f_port` missing inside `uplink_message` for TTS3, `fCnt` missing for
ChirpStack), contradicting the claim's "no downlink and no
exception". -/
theorem C3_missing_field_raises :
    parser_tts3 (fun _ _ => 0) ("t".data) (some bodyTTSnoPort)
      = Except.error (PyErr.keyError ("f_port".data))
    ∧ parser_cs34 (fun _ _ => 0) ("t".data) (some bodyCSnoCnt)
      = Except.error (PyErr.keyError ("fCnt".data))
    ∧ (Except.error (PyErr.keyError ("f_port".data)) : Except PyErr (Option (List Char × JVal)))
      ≠ Except.ok none :=
  ⟨rfl, rfl, fun h => Except.noConfusion h⟩

/-- Claim C4 (confirmed): on a ten-byte payload with a GPS fix the
decoder produces latitude, longitude, altitude and accuracy exactly as
claimed: sign bits from byte 0 bits 7 and 6, the packed 24-bit
latitude and 23-bit longitude magnitudes, the scaling formulas, the
offset altitude and the hdop-derived accuracy. -/
theorem C4_decode_fields (dist : ℚ × ℚ → ℚ × ℚ → ℕ) (b0 b1 b2 b3 b4 b5 b6 b7 b8 b9 : ℕ)
    (port : ℚ) (seq : ℤ) (gws : List Gateway)
    (hb0 : b0 < 256) (hb1 : b1 < 256) (hb2 : b2 < 256) (hb3 : b3 < 256)
    (hb4 : b4 < 256) (hb5 : b5 < 256)
    (hfix1 : (b8 : ℚ) / 10 ≤ 2) (hfix2 : 5 ≤ b9) :
    ∃ (out : Output) (gps : GpsData),
      process dist [b0, b1, b2, b3, b4, b5, b6, b7, b8, b9] port seq gws = Except.ok out
      ∧ out.gps = some gps
      ∧ gps.latitude = (if b0 / 2 ^ 6 % 2 = 1 then (-1 : ℚ) else 1) *
          (((b0 % 2 ^ 6 * 2 ^ 17 + b1 * 2 ^ 9 + b2 * 2 + b3 / 2 ^ 7 : ℕ) : ℚ) * 108 + 53) / 10000000
      ∧ gps.longitude = (if b0 / 2 ^ 7 % 2 = 1 then (-1 : ℚ) else 1) *
          (((b3 % 2 ^ 7 * 2 ^ 16 + b4 * 2 ^ 8 + b5 : ℕ) : ℚ) * 215 + 107) / 10000000
      ∧ gps.altitude = ((b6 * 2 ^ 8 + b7 : ℕ) : ℤ) - 1000
      ∧ gps.accuracy = ((b8 : ℚ) / 10 * 5 + 5) / 10
      ∧ b0 % 2 ^ 6 * 2 ^ 17 + b1 * 2 ^ 9 + b2 * 2 + b3 / 2 ^ 7 < 2 ^ 24
      ∧ b3 % 2 ^ 7 * 2 ^ 16 + b4 * 2 ^ 8 + b5 < 2 ^ 23 := by
  have hP : (b8 : ℚ) / 10 ≤ 2 ∧ 5 ≤ b9 := ⟨hfix1, hfix2⟩
  refine ⟨_, gpsOf b0 b1 b2 b3 b4 b5 b6 b7 ((b8 : ℚ) / 10),
    process_ten dist b0 b1 b2 b3 b4 b5 b6 b7 b8 b9 port seq gws, ?_, ?_, ?_, ?_, ?_, ?_, ?_⟩
  · simp [procOut10, if_pos hP]
  · show (gpsOf b0 b1 b2 b3 b4 b5 b6 b7 ((b8 : ℚ) / 10)).latitude = _
    simp only [gpsOf]
    rw [encLat_arith b0 b1 b2 b3,
      show (if (b0 >>> 6) &&& 1 ≠ 0 then (-1 : ℚ) else 1)
          = (if b0 / 2 ^ 6 % 2 = 1 then (-1 : ℚ) else 1) from
        if_congr (shift_and_arith b0 6) rfl rfl]
  · show (gpsOf b0 b1 b2 b3 b4 b5 b6 b7 ((b8 : ℚ) / 10)).longitude = _
    simp only [gpsOf]
    rw [encLon_arith b3 b4 b5,
      show (if (b0 >>> 7) &&& 1 ≠ 0 then (-1 : ℚ) else 1)
          = (if b0 / 2 ^ 7 % 2 = 1 then (-1 : ℚ) else 1) from
        if_congr (shift_and_arith b0 7) rfl rfl]
  · show (gpsOf b0 b1 b2 b3 b4 b5 b6 b7 ((b8 : ℚ) / 10)).altitude = _
    simp only [gpsOf]
    rw [Nat.shiftLeft_eq]
  · rfl
  · have e6 : (2 : ℕ) ^ 6 = 64 := by norm_num
    have e17 : (2 : ℕ) ^ 17 = 131072 := by norm_num
    have e9 : (2 : ℕ) ^ 9 = 512 := by norm_num
    have e7 : (2 : ℕ) ^ 7 = 128 := by norm_num
    have e24 : (2 : ℕ) ^ 24 = 16777216 := by norm_num
    rw [e6, e17, e9, e7, e24]
    omega
  · have e7 : (2 : ℕ) ^ 7 = 128 := by norm_num
    have e16 : (2 : ℕ) ^ 16 = 65536 := by norm_num
    have e8 : (2 : ℕ) ^ 8 = 256 := by norm_num
    have e23 : (2 : ℕ) ^ 23 = 8388608 := by norm_num
    rw [e7, e16, e8, e23]
    omega

/-- Witness for `C4_decode_fields` at a concrete ten-byte payload with
a fix (hdop 2.0, 8 satellites). -/
theorem C4_decode_fields_witness :
    ∃ (out : Output) (gps : GpsData),
      process (fun _ _ => 0) [202, 18, 52, 182, 120, 154, 5, 220, 20, 8] 1 0 [] = Except.ok out
      ∧ out.gps = some gps
      ∧ gps.latitude = (if 202 / 2 ^ 6 % 2 = 1 then (-1 : ℚ) else 1) *
          (((202 % 2 ^ 6 * 2 ^ 17 + 18 * 2 ^ 9 + 52 * 2 + 182 / 2 ^ 7 : ℕ) : ℚ) * 108 + 53) / 10000000
      ∧ gps.longitude = (if 202 / 2 ^ 7 % 2 = 1 then (-1 : ℚ) else 1) *
          (((182 % 2 ^ 7 * 2 ^ 16 + 120 * 2 ^ 8 + 154 : ℕ) : ℚ) * 215 + 107) / 10000000
      ∧ gps.altitude = ((5 * 2 ^ 8 + 220 : ℕ) : ℤ) - 1000
      ∧ gps.accuracy = (((20 : ℕ) : ℚ) / 10 * 5 + 5) / 10
      ∧ 202 % 2 ^ 6 * 2 ^ 17 + 18 * 2 ^ 9 + 52 * 2 + 182 / 2 ^ 7 < 2 ^ 24
      ∧ 182 % 2 ^ 7 * 2 ^ 16 + 120 * 2 ^ 8 + 154 < 2 ^ 23 :=
  C4_decode_fields (fun _ _ => 0) 202 18 52 182 120 154 5 220 20 8 1 0 []
    (by decide) (by decide) (by decide) (by decide) (by decide) (by decide)
    (by with_unfolding_all decide) (by decide)

/-- Claim C5 (confirmed): for port 1 with sequence 300, signals -80
and -60, distances 500 m and 1000 m, 3 gateways and a fix, the encoder
produces exactly the 6-byte buffer 44, 120, 140, 2, 4, 3. -/
theorem C5_port1_vector :
    buildBuffer
      { hasFix := true, minSignal := -80, maxSignal := -60,
        minDistance := 500, maxDistance := 1000, gatewayCount := 3 } 300 1
      = some [44, 120, 140, 2, 4, 3] := by decide

/-- Claim C6 (confirmed): on every ten-byte payload the decoder sets
hdop to byte 8 over ten and satellites to byte 9, and the fix flag
holds exactly when hdop is at most 2 and there are at least 5
satellites. -/
theorem C6_fix_quality (dist : ℚ × ℚ → ℚ × ℚ → ℕ) (b0 b1 b2 b3 b4 b5 b6 b7 b8 b9 : ℕ)
    (port : ℚ) (seq : ℤ) (gws : List Gateway) :
    ∃ out : Output,
      process dist [b0, b1, b2, b3, b4, b5, b6, b7, b8, b9] port seq gws = Except.ok out
      ∧ out.hdop = (b8 : ℚ) / 10
      ∧ out.sats = b9
      ∧ (out.has_gps = true ↔ ((b8 : ℚ) / 10 ≤ 2 ∧ 5 ≤ b9)) := by
  refine ⟨_, process_ten dist b0 b1 b2 b3 b4 b5 b6 b7 b8 b9 port seq gws, rfl, rfl, ?_⟩
  by_cases hP : ((b8 : ℚ)) / 10 ≤ 2 ∧ 5 ≤ b9
  · simp [procOut10, if_pos hP, hP]
  · simp [procOut10, if_neg hP, hP]

/-- Claim C7 (confirmed): aggregating an empty gateway list with a GPS
fix returns the sentinels untouched: zero gateways, min signal 200,
max signal -200, min distance 1000000, max distance 0. -/
theorem C7_empty_aggregation (dist : ℚ × ℚ → ℚ × ℚ → ℕ)
    (b0 b1 b2 b3 b4 b5 b6 b7 b8 b9 : ℕ) (port : ℚ) (seq : ℤ)
    (h1 : (b8 : ℚ) / 10 ≤ 2) (h2 : 5 ≤ b9) :
    ∃ out : Output,
      process dist [b0, b1, b2, b3, b4, b5, b6, b7, b8, b9] port seq [] = Except.ok out
      ∧ out.agg.gatewayCount = 0 ∧ out.agg.minSignal = 200 ∧ out.agg.maxSignal = -200
      ∧ out.agg.minDistance = 1000000 ∧ out.agg.maxDistance = 0 := by
  refine ⟨_, process_ten dist b0 b1 b2 b3 b4 b5 b6 b7 b8 b9 port seq [], ?_, ?_, ?_, ?_, ?_⟩ <;>
    simp [procOut10, if_pos (And.intro h1 h2), aggregateGateways,
      MAX_RSSI, MIN_RSSI, MAX_DISTANCE, MIN_DISTANCE]

/-- Witness for `C7_empty_aggregation` on the all-zero payload with 5
satellites. -/
theorem C7_empty_aggregation_witness :
    ∃ out : Output,
      process (fun _ _ => 0) [0, 0, 0, 0, 0, 0, 0, 0, 0, 5] 1 0 [] = Except.ok out
      ∧ out.agg.gatewayCount = 0 ∧ out.agg.minSignal = 200 ∧ out.agg.maxSignal = -200
      ∧ out.agg.minDistance = 1000000 ∧ out.agg.maxDistance = 0 :=
  C7_empty_aggregation (fun _ _ => 0) 0 0 0 0 0 0 0 0 0 5 1 0
    (by with_unfolding_all decide) (by decide)

/-- Claim C8, counterexample (corrected): `str.replace` substitutes
every occurrence, not only the trailing one.  On the topic
`v3/up/devices/abc/up` the TTS3 adapter produces
`v3/down/replace/devices/abc/down/replace`, while replacing only the
trailing `/up` would give `v3/up/devices/abc/down/replace`. -/
theorem C8_counterexample :
    pyReplace ("v3/up/devices/abc/up".data) ("/up".data) ("/down/replace".data)
      = ("v3/down/replace/devices/abc/down/replace".data)
    ∧ replaceTrailing ("v3/up/devices/abc/up".data) ("/up".data) ("/down/replace".data)
      = ("v3/up/devices/abc/down/replace".data)
    ∧ ("v3/down/replace/devices/abc/down/replace".data)
      ≠ ("v3/up/devices/abc/down/replace".data)
    ∧ parser_tts3 (fun _ _ => 0) ("v3/up/devices/abc/up".data) (some bodyTTSok)
      = Except.ok (some (("v3/down/replace/devices/abc/down/replace".data), downlinkTTSok)) := by
  refine ⟨by decide, by decide, by decide, ?_⟩
  with_unfolding_all rfl

/-- Claim C8, amended (corrected): both adapters rewrite the topic by
replacing every left-to-right non-overlapping occurrence of the
pattern (`/up` to `/down/replace` for TTS3, `/event/up` to
`/command/down` for ChirpStack), which coincides with trailing
replacement only when the pattern occurs once; the particular example
`application/123/device/ABC/event/up` maps to
`application/123/device/ABC/command/down`. -/
theorem C8_amended_topics :
    (∀ (dist : ℚ × ℚ → ℚ × ℚ → ℕ) (topic : List Char) (body : Option JVal)
        (t : List Char) (dl : JVal),
      parser_tts3 dist topic body = Except.ok (some (t, dl)) →
        t = pyReplace topic ("/up".data) ("/down/replace".data))
    ∧ (∀ (dist : ℚ × ℚ → ℚ × ℚ → ℕ) (topic : List Char) (body : Option JVal)
        (t : List Char) (dl : JVal),
      parser_cs34 dist topic body = Except.ok (some (t, dl)) →
        t = pyReplace topic ("/event/up".data) ("/command/down".data))
    ∧ pyReplace ("application/123/device/ABC/event/up".data)
        ("/event/up".data) ("/command/down".data)
      = ("application/123/device/ABC/command/down".data) :=
  ⟨tts3_topic_shape, cs34_topic_shape, by decide⟩

/-- Witness for `C8_amended_topics`: a full ChirpStack parse of a
valid envelope, whose produced topic is the replace-all rewrite. -/
theorem C8_amended_topics_witness :
    parser_cs34 (fun _ _ => 0) ("application/123/device/ABC/event/up".data) (some bodyCSok)
      = Except.ok (some (("application/123/device/ABC/command/down".data), downlinkCSok))
    ∧ ("application/123/device/ABC/command/down".data)
      = pyReplace ("application/123/device/ABC/event/up".data)
          ("/event/up".data) ("/command/down".data) := by
  have h : parser_cs34 (fun _ _ => 0) ("application/123/device/ABC/event/up".data)
      (some bodyCSok)
      = Except.ok (some (("application/123/device/ABC/command/down".data), downlinkCSok)) := by
    with_unfolding_all rfl
  exact ⟨h, C8_amended_topics.2.1 _ _ _ _ _ h⟩

/-- Claim C9 (confirmed): for ports 1 and 11 the encoder always
produces a buffer whose entries are bytes (so `bytes(buffer)` cannot
fail), and the encoded distance fields are zero exactly when there is
no GPS fix; with a fix the port-1 bytes lie in 1..128 and the port-11
16-bit values in 1..65535. -/
theorem C9_buffer_invariants (agg : AggregateResult) (seq : ℤ) (port : ℚ)
    (h : port = 1 ∨ port = 11) :
    ∃ buf : List ℤ, buildBuffer agg seq port = some buf
      ∧ (∀ x ∈ buf, 0 ≤ x ∧ x ≤ 255)
      ∧ (∃ bs, bytesOfList buf = Except.ok bs)
      ∧ (port = 1 → ∃ dmin dmax : ℤ,
          buf = [seq % 256, (agg.minSignal + 200) % 256, (agg.maxSignal + 200) % 256,
                 dmin, dmax, (agg.gatewayCount : ℤ) % 256]
          ∧ (dmin = 0 ↔ agg.hasFix = false) ∧ (dmax = 0 ↔ agg.hasFix = false)
          ∧ (agg.hasFix = true → 1 ≤ dmin ∧ dmin ≤ 128 ∧ 1 ≤ dmax ∧ dmax ≤ 128))
      ∧ (port = 11 → ∃ emin emax : ℤ,
          buf = [seq % 256, (agg.minSignal + 200) % 256, (agg.maxSignal + 200) % 256,
                 emin / 256 % 256, emin % 256, emax / 256 % 256, emax % 256,
                 (agg.gatewayCount : ℤ) % 256]
          ∧ (emin = 0 ↔ agg.hasFix = false) ∧ (emax = 0 ↔ agg.hasFix = false)
          ∧ (agg.hasFix = true → 1 ≤ emin ∧ emin ≤ 65535 ∧ 1 ≤ emax ∧ emax ≤ 65535)) := by
  rcases h with h1 | h11
  · subst h1
    have hv1 := constrain_bounds (pyRoundDiv agg.minDistance 250) 1 128 (by norm_num)
    have hv2 := constrain_bounds (pyRoundDiv agg.maxDistance 250) 1 128 (by norm_num)
    cases hf : agg.hasFix with
    | true =>
      have heq : buildBuffer agg seq 1 = some
          [seq % 256, (agg.minSignal + 200) % 256, (agg.maxSignal + 200) % 256,
           ((constrain (pyRoundDiv agg.minDistance 250) 1 128 : ℕ) : ℤ),
           ((constrain (pyRoundDiv agg.maxDistance 250) 1 128 : ℕ) : ℤ),
           (agg.gatewayCount : ℤ) % 256] := by
        simp only [buildBuffer, eq_self_iff_true, if_true, hf]
      refine ⟨_, heq, ?_, ?_, ?_, ?_⟩
      · intro x hx
        simp only [List.mem_cons, List.not_mem_nil, or_false] at hx
        rcases hx with rfl | rfl | rfl | rfl | rfl | rfl <;> omega
      · apply bytesOfList_ok
        intro x hx
        simp only [List.mem_cons, List.not_mem_nil, or_false] at hx
        rcases hx with rfl | rfl | rfl | rfl | rfl | rfl <;> omega
      · intro _
        refine ⟨((constrain (pyRoundDiv agg.minDistance 250) 1 128 : ℕ) : ℤ),
          ((constrain (pyRoundDiv agg.maxDistance 250) 1 128 : ℕ) : ℤ), rfl, ?_, ?_, fun _ => ?_⟩
        · constructor
          · intro hz
            exfalso
            omega
          · intro hcon
            exact absurd hcon (by simp)
        · constructor
          · intro hz
            exfalso
            omega
          · intro hcon
            exact absurd hcon (by simp)
        · refine ⟨by omega, by omega, by omega, by omega⟩
      · intro habs
        exact absurd habs (by norm_num)
    | false =>
      have heq : buildBuffer agg seq 1 = some
          [seq % 256, (agg.minSignal + 200) % 256, (agg.maxSignal + 200) % 256,
           0, 0, (agg.gatewayCount : ℤ) % 256] := by
        simp only [buildBuffer, eq_self_iff_true, if_true, hf, Bool.false_eq_true,
          if_false, Nat.cast_zero]
      refine ⟨_, heq, ?_, ?_, ?_, ?_⟩
      · intro x hx
        simp only [List.mem_cons, List.not_mem_nil, or_false] at hx
        rcases hx with rfl | rfl | rfl | rfl | rfl | rfl <;> omega
      · apply bytesOfList_ok
        intro x hx
        simp only [List.mem_cons, List.not_mem_nil, or_false] at hx
        rcases hx with rfl | rfl | rfl | rfl | rfl | rfl <;> omega
      · intro _
        exact ⟨0, 0, rfl, by simp, by simp, fun hcon => absurd hcon (by simp)⟩
      · intro habs
        exact absurd habs (by norm_num)
  · subst h11
    have hv1 := constrain_bounds (pyRoundDiv agg.minDistance 10) 1 65535 (by norm_num)
    have hv2 := constrain_bounds (pyRoundDiv agg.maxDistance 10) 1 65535 (by norm_num)
    cases hf : agg.hasFix with
    | true =>
      have hc1 : ((constrain (pyRoundDiv agg.minDistance 10) 1 65535 / 256 : ℕ) : ℤ)
          = ((constrain (pyRoundDiv agg.minDistance 10) 1 65535 : ℕ) : ℤ) / 256 := by omega
      have hc2 : ((constrain (pyRoundDiv agg.minDistance 10) 1 65535 % 256 : ℕ) : ℤ)
          = ((constrain (pyRoundDiv agg.minDistance 10) 1 65535 : ℕ) : ℤ) % 256 := by omega
      have hc3 : ((constrain (pyRoundDiv agg.maxDistance 10) 1 65535 / 256 : ℕ) : ℤ)
          = ((constrain (pyRoundDiv agg.maxDistance 10) 1 65535 : ℕ) : ℤ) / 256 := by omega
      have hc4 : ((constrain (pyRoundDiv agg.maxDistance 10) 1 65535 % 256 : ℕ) : ℤ)
          = ((constrain (pyRoundDiv agg.maxDistance 10) 1 65535 : ℕ) : ℤ) % 256 := by omega
      have heq : buildBuffer agg seq 11 = some
          [seq % 256, (agg.minSignal + 200) % 256, (agg.maxSignal + 200) % 256,
           ((constrain (pyRoundDiv agg.minDistance 10) 1 65535 : ℕ) : ℤ) / 256 % 256,
           ((constrain (pyRoundDiv agg.minDistance 10) 1 65535 : ℕ) : ℤ) % 256,
           ((constrain (pyRoundDiv agg.maxDistance 10) 1 65535 : ℕ) : ℤ) / 256 % 256,
           ((constrain (pyRoundDiv agg.maxDistance 10) 1 65535 : ℕ) : ℤ) % 256,
           (agg.gatewayCount : ℤ) % 256] := by
        simp only [buildBuffer, if_neg (show ¬(11 : ℚ) = 1 by norm_num),
          eq_self_iff_true, if_true, hf]
        rw [hc1, hc2, hc3, hc4]
      refine ⟨_, heq, ?_, ?_, ?_, ?_⟩
      · intro x hx
        simp only [List.mem_cons, List.not_mem_nil, or_false] at hx
        rcases hx with rfl | rfl | rfl | rfl | rfl | rfl | rfl | rfl <;> omega
      · apply bytesOfList_ok
        intro x hx
        simp only [List.mem_cons, List.not_mem_nil, or_false] at hx
        rcases hx with rfl | rfl | rfl | rfl | rfl | rfl | rfl | rfl <;> omega
      · intro habs
        exact absurd habs (by norm_num)
      · intro _
        refine ⟨((constrain (pyRoundDiv agg.minDistance 10) 1 65535 : ℕ) : ℤ),
          ((constrain (pyRoundDiv agg.maxDistance 10) 1 65535 : ℕ) : ℤ), rfl, ?_, ?_, fun _ => ?_⟩
        · constructor
          · intro hz
            exfalso
            omega
          · intro hcon
            exact absurd hcon (by simp)
        · constructor
          · intro hz
            exfalso
            omega
          · intro hcon
            exact absurd hcon (by simp)
        · refine ⟨by omega, by omega, by omega, by omega⟩
    | false =>
      have heq : buildBuffer agg seq 11 = some
          [seq % 256, (agg.minSignal + 200) % 256, (agg.maxSignal + 200) % 256,
           0, 0, 0, 0, (agg.gatewayCount : ℤ) % 256] := by
        simp only [buildBuffer, if_neg (show ¬(11 : ℚ) = 1 by norm_num),
          eq_self_iff_true, if_true, hf, Bool.false_eq_true, if_false,
          Nat.zero_div, Nat.zero_mod, Nat.cast_zero, Int.zero_emod]
      refine ⟨_, heq, ?_, ?_, ?_, ?_⟩
      · intro x hx
        simp only [List.mem_cons, List.not_mem_nil, or_false] at hx
        rcases hx with rfl | rfl | rfl | rfl | rfl | rfl | rfl | rfl <;> omega
      · apply bytesOfList_ok
        intro x hx
        simp only [List.mem_cons, List.not_mem_nil, or_false] at hx
        rcases hx with rfl | rfl | rfl | rfl | rfl | rfl | rfl | rfl <;> omega
      · intro habs
        exact absurd habs (by norm_num)
      · intro _
        refine ⟨0, 0, by norm_num, by simp, by simp, fun hcon => absurd hcon (by simp)⟩

/-- Witness for `C9_buffer_invariants` on port 1 at a concrete
aggregate. -/
theorem C9_buffer_invariants_witness :
    ∃ buf : List ℤ,
      buildBuffer
        { hasFix := true, minSignal := -80, maxSignal := -60,
          minDistance := 500, maxDistance := 1000, gatewayCount := 3 } 300 1 = some buf
      ∧ (∀ x ∈ buf, 0 ≤ x ∧ x ≤ 255)
      ∧ (∃ bs, bytesOfList buf = Except.ok bs)
      ∧ ((1 : ℚ) = 1 → ∃ dmin dmax : ℤ,
          buf = [(300 : ℤ) % 256, ((-80 : ℤ) + 200) % 256, ((-60 : ℤ) + 200) % 256,
                 dmin, dmax, ((3 : ℕ) : ℤ) % 256]
          ∧ (dmin = 0 ↔ (true : Bool) = false) ∧ (dmax = 0 ↔ (true : Bool) = false)
          ∧ ((true : Bool) = true → 1 ≤ dmin ∧ dmin ≤ 128 ∧ 1 ≤ dmax ∧ dmax ≤ 128))
      ∧ ((1 : ℚ) = 11 → ∃ emin emax : ℤ,
          buf = [(300 : ℤ) % 256, ((-80 : ℤ) + 200) % 256, ((-60 : ℤ) + 200) % 256,
                 emin / 256 % 256, emin % 256, emax / 256 % 256, emax % 256,
                 ((3 : ℕ) : ℤ) % 256]
          ∧ (emin = 0 ↔ (true : Bool) = false) ∧ (emax = 0 ↔ (true : Bool) = false)
          ∧ ((true : Bool) = true → 1 ≤ emin ∧ emin ≤ 65535 ∧ 1 ≤ emax ∧ emax ≤ 65535)) :=
  C9_buffer_invariants
    { hasFix := true, minSignal := -80, maxSignal := -60,
      minDistance := 500, maxDistance := 1000, gatewayCount := 3 } 300 1 (Or.inl rfl)

/-- Claim C10, counterexample (corrected): a syntactically valid JSON
body that is not an object — here the empty array — has no `fPort`
field, yet `payload.get` raises an uncaught `AttributeError` instead
of yielding the no-downlink result. -/
theorem C10_counterexample :
    parser_cs34 (fun _ _ => 0) ("application/1/device/d/event/up".data) (some (JVal.jarr []))
      = Except.error PyErr.attributeError
    ∧ (Except.error PyErr.attributeError : Except PyErr (Option (List Char × JVal)))
      ≠ Except.ok none :=
  ⟨rfl, fun h => Except.noConfusion h⟩

/-- Claim C10, amended (corrected): for every syntactically valid JSON
object body without an `fPort` field, `parser_cs34` substitutes port 0
(not a supported port) and returns the no-downlink result without
raising any exception. -/
theorem C10_amended_missing_fport (dist : ℚ × ℚ → ℚ × ℚ → ℕ) (topic : List Char)
    (fields : List (List Char × JVal)) (h : jlookup fields ("fPort".data) = none) :
    pyGetD (JVal.jobj fields) ("fPort".data) (JVal.jnum 0) = Except.ok (JVal.jnum 0)
    ∧ parser_cs34 dist topic (some (JVal.jobj fields)) = Except.ok none := by
  have q1 : pyEqInt (JVal.jnum 0) 1 = false := by decide
  have q11 : pyEqInt (JVal.jnum 0) 11 = false := by decide
  constructor
  · simp [pyGetD, h]
  · simp only [parser_cs34, pyContains, pyGetD, h, Option.getD_none, ok_bind, q1, q11,
      eq_self_iff_true, and_self, if_true]

/-- Witness for `C10_amended_missing_fport` on the empty JSON
object. -/
theorem C10_amended_missing_fport_witness :
    pyGetD (JVal.jobj []) ("fPort".data) (JVal.jnum 0) = Except.ok (JVal.jnum 0)
    ∧ parser_cs34 (fun _ _ => 0) ("application/1/device/d/event/up".data)
        (some (JVal.jobj [])) = Except.ok none :=
  C10_amended_missing_fport (fun _ _ => 0) ("application/1/device/d/event/up".data) [] rfl

end FieldTester
